import Mathlib

/-! Vision Calling backend: credential lifecycle and notification drafts.

A shallow embedding of `src/functions/models/user.model.js` (the static
methods `findAndGenerateToken`, `changePassword`, `forgotPassword`,
`resetPassword`) and of `src/functions/helpers/notification.js`
(`draftNotification`).

The `users` collection is a list of documents in natural order; `findOne`
returns the first document matching a filter and `updateOne` rewrites the first
document matching a filter.  A JavaScript value that may be `undefined` or
`null` is an `Option`, with `none` standing for both.  The `bcrypt` library and
the configuration module are collaborators that are passed in explicitly.

The schema's `unique: true` indexes are not enforced by `updateOne`; distinct
ids and distinct non-null keys are predicates on a collection (`idsUnique`,
`uniqueKeys`) that the theorems assume where they need them.
-/

namespace VisionCalling

/-! ## JavaScript helpers -/

/-- Truthiness of a value that is a string, `undefined` or `null`: only a
non-empty string is truthy. -/
def truthy : Option String → Bool
  | some s => s != ""
  | none => false

/-- Interpolation `${v}` of a string-or-undefined value in a template literal. -/
def interpolate : Option String → String
  | some s => s
  | none => "undefined"

/-- Method `toLowerCase` of a string, which the `lowercase: true` option of the
schema's `email` path applies to an email on its way into a document and into
a query filter; the letters `A` to `Z` are the ones it rewrites here. -/
def toLowerCase (s : String) : String :=
  String.mk (s.toList.map Char.toLower)

/-! ## http-status constants -/

def NOT_FOUND : Nat := 404
def UNAUTHORIZED : Nat := 401
def BAD_REQUEST : Nat := 400

/-! ## Collaborators -/

/-- The two `bcrypt` entry points the model calls.  Hashes produced by
`hashSync` have a fixed length of 60 characters, so they lie inside the bounds
(`minlength: 4`, `maxlength: 128`) that the schema puts on `password`; only the
bounds are recorded. -/
structure Hasher where
  hashSync : String → String
  compareSync : String → String → Bool
  hash_length : ∀ p, 4 ≤ (hashSync p).length ∧ (hashSync p).length ≤ 128

/-- The parts of `config` that the model reads. -/
structure Config where
  sender : String
  hostname : String
  deriving DecidableEq, Repr

/-- The properties of the receiver `this` that static methods read besides the
query methods.  Statics are invoked on the compiled model, which is a
constructor function: it has a `name`, and neither `email` nor
`forgotPasswordKey`. -/
structure ModelProps where
  email : Option String
  name : Option String
  forgotPasswordKey : Option String
  deriving DecidableEq, Repr

/-- The compiled `User` model as receiver of a static call; `fnName` is the name
of its constructor function. -/
def UserModel (fnName : String) : ModelProps :=
  { email := none, name := some fnName, forgotPasswordKey := none }

/-! ## Documents and the collection -/

/-- A document of `userSchema`. -/
structure User where
  _id : Nat
  email : String
  password : String
  name : Option String
  activationKey : Option String
  active : Bool
  role : String
  forgotPasswordKey : Option String
  deriving DecidableEq, Repr

abbrev Store := List User

/-- Query `findOne(filter)`: the first document satisfying the filter. -/
def findOne (p : User → Bool) (s : Store) : Option User :=
  s.find? p

/-- Query `findById(id)`. -/
def findById (id : Nat) (s : Store) : Option User :=
  findOne (fun u => u._id == id) s

/-- Query `updateOne(filter, update)`: the first document satisfying the filter
is rewritten, the others are kept. -/
def updateOne (p : User → Bool) (f : User → User) : Store → Store
  | [] => []
  | u :: rest => if p u then f u :: rest else u :: updateOne p f rest

/-- Method `passwordMatches` of a document. -/
def User.passwordMatches (H : Hasher) (u : User) (password : String) : Bool :=
  H.compareSync password u.password

/-! ## Errors and mail -/

deriving instance DecidableEq for Except

/-- What a static method can throw: an `APIError` (its status is `none` when the
constructor is given the message only) or a validation error raised by an
update run with `runValidators`. -/
inductive Thrown where
  | api (message : String) (status : Option Nat)
  | validation (path : String)
  deriving DecidableEq, Repr

/-- The object handed to `transporter.sendMail`. -/
structure MailOptions where
  from_ : String
  to_ : Option String
  subject : String
  html : String
  deriving DecidableEq, Repr

/-! ## Static methods of the user model -/

/-- Payload of `findAndGenerateToken`; the login route validates `password` as a
required string. -/
structure LoginPayload where
  email : Option String
  password : String
  deriving DecidableEq, Repr

/-- Static `findAndGenerateToken(payload)`.  The filter `{ email }` is cast by
the schema, so the lookup is made with the lowercased email; the message of the
not-found error quotes the email as given. -/
def findAndGenerateToken (H : Hasher) (s : Store) (payload : LoginPayload) :
    Except Thrown User :=
  match payload.email with
  | none => .error (.api "Email ID must be provided for login" none)
  | some email =>
    if email == "" then .error (.api "Email ID must be provided for login" none)
    else
      match findOne (fun u => u.email == toLowerCase email) s with
      | none => .error (.api ("No user associated with " ++ email) (some NOT_FOUND))
      | some user =>
        let passwordOK := user.passwordMatches H payload.password
        if !passwordOK then
          .error (.api "Incorrect Email ID or password" (some UNAUTHORIZED))
        else if !user.active then
          .error (.api "User not activated" (some UNAUTHORIZED))
        else .ok user

/-- Payload of `changePassword`. -/
structure ChangePayload where
  oldPassword : Option String
  newPassword : Option String
  deriving DecidableEq, Repr

/-- Update validators of the `password` path: `required`, `minlength: 4`,
`maxlength: 128`. -/
def passwordValid (p : String) : Bool :=
  p != "" && decide (4 ≤ p.length) && decide (p.length ≤ 128)

/-- Static `changePassword(payload, id)`: the outcome together with the
collection afterwards. -/
def changePassword (H : Hasher) (s : Store) (payload : ChangePayload) (id : Nat) :
    Except Thrown Unit × Store :=
  if !truthy payload.oldPassword then
    (.error (.api "Current Password must be provided" none), s)
  else if !truthy payload.newPassword then
    (.error (.api "New Password must be provided" none), s)
  else
    match findById id s with
    | none => (.error (.api "No user found" (some NOT_FOUND)), s)
    | some user =>
      if !user.passwordMatches H (payload.oldPassword.getD "") then
        (.error (.api "Current Password does not match" (some UNAUTHORIZED)), s)
      else if user.passwordMatches H (payload.newPassword.getD "") then
        (.error (.api "New Password cannot be same as Current Password"
          (some BAD_REQUEST)), s)
      else
        let hashed := H.hashSync (payload.newPassword.getD "")
        if passwordValid hashed then
          (.ok (), updateOne (fun u => u._id == id)
            (fun u => { u with password := hashed }) s)
        else (.error (.validation "password"), s)

/-- What `forgotPassword` leaves behind: the outcome, the collection, and the
messages handed to the mail transport. -/
structure ForgotOutcome where
  result : Except Thrown Unit
  store : Store
  mails : List MailOptions

/-- Static `forgotPassword(email, forgotPasswordKey)`, called on the receiver
`self`.  The filter `{ email }` is cast by the schema, so the update is addressed
with the lowercased email. -/
def forgotPassword (cfg : Config) (self : ModelProps) (s : Store)
    (email : Option String) (forgotPasswordKey : String) : ForgotOutcome :=
  if !truthy email then
    { result := .error (.api "Email ID is required" none), store := s, mails := [] }
  else
    let s1 := updateOne (fun u => u.email == toLowerCase (email.getD ""))
      (fun u => { u with forgotPasswordKey := some forgotPasswordKey }) s
    let mailOptions : MailOptions :=
      { from_ := cfg.sender
        to_ := self.email
        subject := "Reset Password"
        html := "<div><h2>Hello " ++ interpolate self.name ++ "!</h2><p>Click <a href=\""
          ++ cfg.hostname ++ "/api/auth/verifyPasswordKey?key="
          ++ interpolate self.forgotPasswordKey
          ++ "\">here</a> to reset your Password.</p></div>" }
    { result := .ok (), store := s1, mails := [mailOptions] }

/-- Payload of `resetPassword`. -/
structure ResetPayload where
  newPassword : Option String
  confirmPassword : Option String
  deriving DecidableEq, Repr

/-- Static `resetPassword(payload, key)`: the returned string together with the
collection afterwards.  The filter `{forgotPasswordKey: key}` with a `null` or
`undefined` key selects the documents whose `forgotPasswordKey` is null or
missing. -/
def resetPassword (H : Hasher) (s : Store) (payload : ResetPayload) (key : Option String) :
    String × Store :=
  if !truthy payload.newPassword then ("New Password must be provided", s)
  else if !truthy payload.confirmPassword then ("Confirm Password must be provided", s)
  else if payload.newPassword != payload.confirmPassword then
    ("New Password and Confirm Password does not match", s)
  else
    match findOne (fun u => u.forgotPasswordKey == key) s with
    | none => ("No user found", s)
    | some user =>
      if user.passwordMatches H (payload.newPassword.getD "") then
        ("New Password cannot be same as Current Password", s)
      else
        ("success", updateOne (fun u => u._id == user._id)
          (fun u => { u with
            password := H.hashSync (payload.newPassword.getD "")
            forgotPasswordKey := none }) s)

/-! ## Notification drafts -/

/-- A sender or receiver object: the properties that `draftNotification`
reads from it. -/
structure Peer where
  _id : Nat
  name : Option String
  fcmToken : Option String
  deriving DecidableEq, Repr

/-- A message payload: the properties that `draftNotification` reads from it. -/
structure Message where
  _id : Nat
  lastMessage : String
  deriving DecidableEq, Repr

/-- The argument `msg`: left out (the default `''` applies, on which every
property read gives `undefined`), `null`, or a message object. -/
inductive MsgArg where
  | omitted
  | null
  | obj (m : Message)
  deriving DecidableEq, Repr

/-- The object under `message.data`. -/
structure PushData where
  title : Option String
  body : String
  type_ : String
  senderId : Nat
  receiverId : Nat
  visionCode : String
  agoraToken : String
  msgId : Option Nat
  deriving DecidableEq, Repr

/-- The object under `message`. -/
structure PushMessage where
  data : PushData
  token : Option String
  deriving DecidableEq, Repr

/-- The record `notificationData`. -/
structure NotificationData where
  message : PushMessage
  type_ : String
  senderId : Nat
  receiverId : Nat
  visionCode : String
  agoraToken : String
  sent : Bool
  error : Option String
  deriving DecidableEq, Repr

/-- What `draftNotification` returns: the record, or the error caught by its
`catch` clause, here the name of the property whose read threw. -/
inductive DraftReturn where
  | data (d : NotificationData)
  | caught (property : String)
  deriving DecidableEq, Repr

/-- The `try` block of `draftNotification`, in evaluation order; `none` for
`sender` or `receiver` is `null` or `undefined`, on which a property read
throws, and `none` for `visionCode` or `agoraToken` is a parameter left out. -/
def draftBlock (type_ : String) (sender receiver : Option Peer)
    (visionCode agoraToken : Option String) (msg : MsgArg) :
    Except String NotificationData := do
  let visionCode := visionCode.getD ""
  let agoraToken := agoraToken.getD ""
  let body ←
    if type_ == "call" then pure "Incoming call invitation"
    else match msg with
      | .omitted => pure (interpolate none)
      | .null => throw "lastMessage"
      | .obj m => pure m.lastMessage
  let sender ← match sender with
    | some p => pure p
    | none => throw "name"
  let title := sender.name
  let receiver ← match receiver with
    | some p => pure p
    | none => throw "_id"
  let msgId ← match msg with
    | .omitted => pure none
    | .null => throw "_id"
    | .obj m => pure (some m._id)
  pure
    { message :=
        { data :=
            { title := title
              body := body
              type_ := type_
              senderId := sender._id
              receiverId := receiver._id
              visionCode := visionCode
              agoraToken := agoraToken
              msgId := msgId }
          token := receiver.fcmToken }
      type_ := type_
      senderId := sender._id
      receiverId := receiver._id
      visionCode := visionCode
      agoraToken := agoraToken
      sent := false
      error := none }

/-- Helper `draftNotification(type, sender, receiver, visionCode, agoraToken, msg)`. -/
def draftNotification (type_ : String) (sender receiver : Option Peer)
    (visionCode agoraToken : Option String) (msg : MsgArg) : DraftReturn :=
  match draftBlock type_ sender receiver visionCode agoraToken msg with
  | .ok d => .data d
  | .error e => .caught e

/-! ## Collection invariants -/

/-- Document ids are pairwise distinct. -/
def idsUnique (s : Store) : Prop :=
  (s.map (fun u => u._id)).Nodup

/-- Non-null `forgotPasswordKey` values are pairwise distinct: two documents
with the same key have no key. -/
def uniqueKeys (s : Store) : Prop :=
  s.Pairwise (fun a b => a.forgotPasswordKey = b.forgotPasswordKey → a.forgotPasswordKey = none)

instance (s : Store) : Decidable (idsUnique s) := by
  unfold idsUnique; infer_instance

instance (s : Store) : Decidable (uniqueKeys s) := by
  unfold uniqueKeys; infer_instance

/-! ## A concrete hasher and concrete documents for the examples -/

/-- A stand-in hasher: a fixed four-character tag followed by at most one
hundred characters of the secret. -/
def tagHasher : Hasher where
  hashSync p := String.mk ('h' :: 's' :: 'h' :: ':' :: p.toList.take 100)
  compareSync d h := h == String.mk ('h' :: 's' :: 'h' :: ':' :: d.toList.take 100)
  hash_length p := by
    simp only [String.length, List.length_cons, List.length_take]
    omega

def sampleConfig : Config := { sender := "noreply@vision.io", hostname := "https://vision.io" }

/-- An account that has not been activated and has no reset outstanding. -/
def ann : User :=
  { _id := 1, email := "ann@x.io", password := tagHasher.hashSync "secret1",
    name := some "Ann", activationKey := some "act-1", active := false,
    role := "user", forgotPasswordKey := none }

/-- An activated account with a reset outstanding under the key `k1`. -/
def bob : User :=
  { _id := 2, email := "bob@x.io", password := tagHasher.hashSync "hunter2",
    name := some "Bob", activationKey := none, active := true,
    role := "user", forgotPasswordKey := some "k1" }

end VisionCalling

namespace VisionCalling

/-! ## Facts about the queries -/

theorem findOne_mem {p : User → Bool} {s : Store} {u : User}
    (h : findOne p s = some u) : u ∈ s :=
  List.mem_of_find?_eq_some h

theorem findOne_holds {p : User → Bool} {s : Store} {u : User}
    (h : findOne p s = some u) : p u = true :=
  List.find?_some h

/-- An update that keeps the filter's verdict on every document is seen by the
same query: the first match is the rewritten one. -/
theorem findOne_updateOne (p : User → Bool) (f : User → User)
    (hf : ∀ u, p (f u) = p u) (s : Store) :
    findOne p (updateOne p f s) = (findOne p s).map f := by
  induction s with
  | nil => rfl
  | cons a t ih =>
    unfold findOne at ih ⊢
    by_cases hp : p a = true
    · simp [updateOne, hp, List.find?_cons, hf]
    · simp [updateOne, hp, List.find?_cons, ih]

/-- An update never changes the list of ids when the rewrite keeps the id. -/
theorem updateOne_ids (p : User → Bool) (f : User → User)
    (hf : ∀ u, (f u)._id = u._id) (s : Store) :
    (updateOne p f s).map (fun u => u._id) = s.map (fun u => u._id) := by
  induction s with
  | nil => rfl
  | cons a t ih =>
    by_cases hp : p a = true
    · simp [updateOne, hp, hf]
    · simp [updateOne, hp, ih]

theorem idsUnique_updateOne (p : User → Bool) (f : User → User)
    (hf : ∀ u, (f u)._id = u._id) {s : Store} (h : idsUnique s) :
    idsUnique (updateOne p f s) := by
  unfold idsUnique at h ⊢
  rw [updateOne_ids p f hf]
  exact h

/-- With distinct ids, the documents after an update are the rewritten first
match and the documents that carry another id. -/
theorem mem_updateOne (p : User → Bool) (f : User → User) {s : Store} {a v : User}
    (hid : idsUnique s) (ha : findOne p s = some a) (hv : v ∈ updateOne p f s) :
    v = f a ∨ (v ∈ s ∧ v._id ≠ a._id) := by
  induction s with
  | nil => simp [findOne] at ha
  | cons b t ih =>
    unfold findOne at ha ih
    unfold idsUnique at hid ih
    simp only [List.map_cons, List.nodup_cons, List.mem_map, not_exists, not_and] at hid
    by_cases hp : p b = true
    · simp [List.find?_cons, hp] at ha
      subst ha
      simp [updateOne, hp] at hv
      rcases hv with hv | hv
      · exact Or.inl hv
      · exact Or.inr ⟨List.mem_cons_of_mem _ hv, fun h => hid.1 v hv h⟩
    · simp [List.find?_cons, hp] at ha
      simp [updateOne, hp] at hv
      have hat : a ∈ t := List.mem_of_find?_eq_some ha
      rcases hv with hv | hv
      · subst hv
        exact Or.inr ⟨List.mem_cons_self _ _, fun h => hid.1 a hat h.symm⟩
      · rcases ih hid.2 ha hv with h | h
        · exact Or.inl h
        · exact Or.inr ⟨List.mem_cons_of_mem _ h.1, h.2⟩

/-- An update addressed to one id is not seen by a lookup of another id. -/
theorem findById_updateOne_other (f : User → User) (hf : ∀ u, (f u)._id = u._id)
    (i j : Nat) (hij : i ≠ j) (s : Store) :
    findById i (updateOne (fun u => u._id == j) f s) = findById i s := by
  induction s with
  | nil => rfl
  | cons a t ih =>
    unfold findById findOne at ih ⊢
    by_cases hp : a._id = j
    · subst hp
      have hne : (a._id == i) = false := by
        simpa using fun h : a._id = i => hij h.symm
      simp [updateOne, List.find?_cons, hf, hne]
    · simp [updateOne, hp, List.find?_cons, ih]

/-! ## Authentication -/

/-- C1: for a login payload whose email is present and matches an account (the
lookup is made with the email lowercased, as the schema casts the filter), a
password that verifies against the stored hash together with `active = false`
gives the error 'User not activated' and not 'Incorrect Email ID or password',
and a password that does not verify gives 'Incorrect Email ID or password'
whatever the value of `active`. -/
theorem findAndGenerateToken_password_before_activation (H : Hasher) (s : Store)
    (email password : String) (user : User) (hemail : email ≠ "")
    (hfind : findOne (fun u => u.email == toLowerCase email) s = some user) :
    (user.passwordMatches H password = true → user.active = false →
      findAndGenerateToken H s ⟨some email, password⟩
          = .error (.api "User not activated" (some UNAUTHORIZED)) ∧
      findAndGenerateToken H s ⟨some email, password⟩
          ≠ .error (.api "Incorrect Email ID or password" (some UNAUTHORIZED))) ∧
    (user.passwordMatches H password = false →
      findAndGenerateToken H s ⟨some email, password⟩
          = .error (.api "Incorrect Email ID or password" (some UNAUTHORIZED))) := by
  refine ⟨fun hpw hact => ?_, fun hpw => ?_⟩
  · have h : findAndGenerateToken H s ⟨some email, password⟩
        = .error (.api "User not activated" (some UNAUTHORIZED)) := by
      simp [findAndGenerateToken, hemail, hfind, hpw, hact]
    refine ⟨h, ?_⟩
    rw [h]
    decide
  · simp [findAndGenerateToken, hemail, hfind, hpw]

theorem findAndGenerateToken_password_before_activation_witness :
    findAndGenerateToken tagHasher [ann, bob] ⟨some "ann@x.io", "secret1"⟩
        = .error (.api "User not activated" (some UNAUTHORIZED)) ∧
    findAndGenerateToken tagHasher [ann, bob] ⟨some "ANN@X.IO", "secret1"⟩
        = .error (.api "User not activated" (some UNAUTHORIZED)) ∧
    findAndGenerateToken tagHasher [ann, bob] ⟨some "ann@x.io", "guess"⟩
        = .error (.api "Incorrect Email ID or password" (some UNAUTHORIZED)) ∧
    findAndGenerateToken tagHasher [ann, bob] ⟨some "Bob@X.io", "guess"⟩
        = .error (.api "Incorrect Email ID or password" (some UNAUTHORIZED)) :=
  ⟨((findAndGenerateToken_password_before_activation tagHasher [ann, bob] "ann@x.io"
      "secret1" ann (by decide) (by decide)).1 (by decide) (by decide)).1,
   ((findAndGenerateToken_password_before_activation tagHasher [ann, bob] "ANN@X.IO"
      "secret1" ann (by decide) (by decide)).1 (by decide) (by decide)).1,
   (findAndGenerateToken_password_before_activation tagHasher [ann, bob] "ann@x.io"
      "guess" ann (by decide) (by decide)).2 (by decide),
   (findAndGenerateToken_password_before_activation tagHasher [ann, bob] "Bob@X.io"
      "guess" bob (by decide) (by decide)).2 (by decide)⟩

/-! ## Password change -/

theorem passwordValid_hashSync (H : Hasher) (p : String) :
    passwordValid (H.hashSync p) = true := by
  have h := H.hash_length p
  have hne : H.hashSync p ≠ "" := by
    intro h0
    rw [h0] at h
    simp at h
  simp [passwordValid, hne, h.1, h.2]

theorem findById_updateOne_same (f : User → User) (hf : ∀ u, (f u)._id = u._id)
    (id : Nat) (s : Store) :
    findById id (updateOne (fun u => u._id == id) f s) = (findById id s).map f :=
  findOne_updateOne (fun u => u._id == id) f (fun u => by simp [hf]) s

/-- C6: for an existing account and a payload with both passwords present whose
`oldPassword` verifies against the stored hash: when `newPassword` verifies
against that same hash (in particular when it equals `oldPassword`),
`changePassword` throws 'New Password cannot be same as Current Password' and
the collection is unchanged; when it does not, `changePassword` completes, the
account's stored hash is the hasher's hash of `newPassword`, its other fields
are kept, and no other account changes. -/
theorem changePassword_noop_or_rehash (H : Hasher) (s : Store) (id : Nat)
    (oldPassword newPassword : String) (user : User)
    (hold : oldPassword ≠ "") (hnew : newPassword ≠ "")
    (hfind : findById id s = some user)
    (holdOK : user.passwordMatches H oldPassword = true) :
    (user.passwordMatches H newPassword = true →
      changePassword H s ⟨some oldPassword, some newPassword⟩ id
        = (.error (.api "New Password cannot be same as Current Password"
            (some BAD_REQUEST)), s)) ∧
    changePassword H s ⟨some oldPassword, some oldPassword⟩ id
        = (.error (.api "New Password cannot be same as Current Password"
            (some BAD_REQUEST)), s) ∧
    (user.passwordMatches H newPassword = false →
      (changePassword H s ⟨some oldPassword, some newPassword⟩ id).1 = .ok () ∧
      findById id (changePassword H s ⟨some oldPassword, some newPassword⟩ id).2
        = some { user with password := H.hashSync newPassword } ∧
      ∀ j, j ≠ id →
        findById j (changePassword H s ⟨some oldPassword, some newPassword⟩ id).2
          = findById j s) := by
  refine ⟨fun hn => ?_, ?_, fun hn => ?_⟩
  · simp [changePassword, truthy, hold, hnew, hfind, holdOK, hn]
  · simp [changePassword, truthy, hold, hfind, holdOK]
  · have hst : changePassword H s ⟨some oldPassword, some newPassword⟩ id
        = (.ok (), updateOne (fun u => u._id == id)
            (fun u => { u with password := H.hashSync newPassword }) s) := by
      simp [changePassword, truthy, hold, hnew, hfind, holdOK, hn, passwordValid_hashSync]
    rw [hst]
    refine ⟨rfl, ?_, fun j hj => ?_⟩
    · have h := findById_updateOne_same
        (fun u => { u with password := H.hashSync newPassword }) (fun _ => rfl) id s
      rw [hfind] at h
      exact h
    · exact findById_updateOne_other
        (fun u => { u with password := H.hashSync newPassword }) (fun _ => rfl) j id hj s

theorem changePassword_noop_or_rehash_witness :
    changePassword tagHasher [ann, bob] ⟨some "hunter2", some "hunter2"⟩ 2
        = (.error (.api "New Password cannot be same as Current Password"
            (some BAD_REQUEST)), [ann, bob]) ∧
    (changePassword tagHasher [ann, bob] ⟨some "hunter2", some "hunter3"⟩ 2).1 = .ok () ∧
    findById 2 (changePassword tagHasher [ann, bob] ⟨some "hunter2", some "hunter3"⟩ 2).2
        = some { bob with password := tagHasher.hashSync "hunter3" } :=
  ⟨(changePassword_noop_or_rehash tagHasher [ann, bob] 2 "hunter2" "hunter3" bob
      (by decide) (by decide) (by decide) (by decide)).2.1,
   ((changePassword_noop_or_rehash tagHasher [ann, bob] 2 "hunter2" "hunter3" bob
      (by decide) (by decide) (by decide) (by decide)).2.2 (by decide)).1,
   ((changePassword_noop_or_rehash tagHasher [ann, bob] 2 "hunter2" "hunter3" bob
      (by decide) (by decide) (by decide) (by decide)).2.2 (by decide)).2.1⟩

/-! ## Notification drafts -/

/-- C7: for every sender, receiver and non-empty `visionCode` and `agoraToken`,
`draftNotification` with type 'call' returns a record whose body is the literal
"Incoming call invitation", whose title is the sender's name, whose
`message.token` is the receiver's `fcmToken`, whose `visionCode` and
`agoraToken` are the ones supplied, and which is pending: `sent` is false and
`error` is null. -/
theorem draftNotification_call_invite (sender receiver : Peer) (visionCode agoraToken : String)
    (hcode : visionCode ≠ "") (htoken : agoraToken ≠ "") :
    ∃ d, draftNotification "call" (some sender) (some receiver) (some visionCode)
          (some agoraToken) .omitted = .data d ∧
      d.message.data.body = "Incoming call invitation" ∧
      d.message.data.title = sender.name ∧
      d.message.token = receiver.fcmToken ∧
      d.visionCode = visionCode ∧ d.message.data.visionCode = visionCode ∧
      d.agoraToken = agoraToken ∧ d.message.data.agoraToken = agoraToken ∧
      d.sent = false ∧ d.error = none :=
  have _ := hcode
  have _ := htoken
  ⟨_, rfl, rfl, rfl, rfl, rfl, rfl, rfl, rfl, rfl, rfl⟩

theorem draftNotification_call_invite_witness :
    ("room-9" : String) ≠ "" ∧ ("tok-1" : String) ≠ "" ∧
    ∃ d, draftNotification "call" (some ⟨1, some "Ann", none⟩) (some ⟨2, none, some "x"⟩)
          (some "room-9") (some "tok-1") .omitted = .data d ∧
      d.message.data.body = "Incoming call invitation" ∧
      d.message.data.title = some "Ann" ∧
      d.message.token = some "x" ∧
      d.visionCode = "room-9" ∧ d.message.data.visionCode = "room-9" ∧
      d.agoraToken = "tok-1" ∧ d.message.data.agoraToken = "tok-1" ∧
      d.sent = false ∧ d.error = none :=
  ⟨by decide, by decide,
    draftNotification_call_invite ⟨1, some "Ann", none⟩ ⟨2, none, some "x"⟩ "room-9" "tok-1"
      (by decide) (by decide)⟩

/-- C8: for every sender, receiver and message payload, `draftNotification`
with a type other than 'call' returns a record whose body is the payload's
`lastMessage`, whose `message.data.msgId` is the payload's `_id`, whose title is
the sender's name, and whose `visionCode` and `agoraToken` are empty when none
are supplied. -/
theorem draftNotification_message (type_ : String) (sender receiver : Peer) (m : Message)
    (htype : type_ ≠ "call") :
    ∃ d, draftNotification type_ (some sender) (some receiver) none none (.obj m) = .data d ∧
      d.message.data.body = m.lastMessage ∧
      d.message.data.msgId = some m._id ∧
      d.message.data.title = sender.name ∧
      d.visionCode = "" ∧ d.message.data.visionCode = "" ∧
      d.agoraToken = "" ∧ d.message.data.agoraToken = "" := by
  simp [draftNotification, draftBlock, htype, bind, Except.bind, pure, Except.pure]

theorem draftNotification_message_witness :
    ("message" : String) ≠ "call" ∧
    ∃ d, draftNotification "message" (some ⟨1, some "Ann", none⟩) (some ⟨2, none, some "x"⟩)
          none none (.obj ⟨5, "hello"⟩) = .data d ∧
      d.message.data.body = "hello" ∧
      d.message.data.msgId = some 5 ∧
      d.message.data.title = some "Ann" ∧
      d.visionCode = "" ∧ d.message.data.visionCode = "" ∧
      d.agoraToken = "" ∧ d.message.data.agoraToken = "" :=
  ⟨by decide,
    draftNotification_message "message" ⟨1, some "Ann", none⟩ ⟨2, none, some "x"⟩
      ⟨5, "hello"⟩ (by decide)⟩

/-- C9, as stated, fails: a call invite with an empty `visionCode` and an empty
`agoraToken` returns a record, and that record carries the two empty strings. -/
theorem draftNotification_call_empty_returns_record :
    ∃ d, draftNotification "call" (some ⟨1, some "Ann", none⟩) (some ⟨2, none, some "x"⟩)
          (some "") (some "") .omitted = .data d ∧
      d.visionCode = "" ∧ d.agoraToken = "" ∧ d.sent = false ∧ d.error = none :=
  ⟨_, rfl, rfl, rfl, rfl, rfl⟩

/-- C9, amended: for every sender and receiver object and every `msg` other
than `null`, `draftNotification` with type 'call' and an empty `visionCode` or
an empty `agoraToken` returns a pending record with the literal body that
carries the supplied, possibly empty, `visionCode` and `agoraToken`. -/
theorem draftNotification_call_unvalidated (sender receiver : Peer)
    (visionCode agoraToken : String) (msg : MsgArg)
    (hempty : visionCode = "" ∨ agoraToken = "") (hmsg : msg ≠ .null) :
    ∃ d, draftNotification "call" (some sender) (some receiver) (some visionCode)
          (some agoraToken) msg = .data d ∧
      d.message.data.body = "Incoming call invitation" ∧
      d.visionCode = visionCode ∧ d.message.data.visionCode = visionCode ∧
      d.agoraToken = agoraToken ∧ d.message.data.agoraToken = agoraToken ∧
      d.sent = false ∧ d.error = none := by
  have _ := hempty
  cases msg with
  | omitted => exact ⟨_, rfl, rfl, rfl, rfl, rfl, rfl, rfl, rfl⟩
  | null => exact absurd rfl hmsg
  | obj m => exact ⟨_, rfl, rfl, rfl, rfl, rfl, rfl, rfl, rfl⟩

theorem draftNotification_call_unvalidated_witness :
    (("" : String) = "" ∨ ("tok-1" : String) = "") ∧ MsgArg.obj ⟨5, "hello"⟩ ≠ MsgArg.null ∧
    ∃ d, draftNotification "call" (some ⟨1, some "Ann", none⟩) (some ⟨2, none, some "x"⟩)
          (some "") (some "tok-1") (.obj ⟨5, "hello"⟩) = .data d ∧
      d.message.data.body = "Incoming call invitation" ∧
      d.visionCode = "" ∧ d.message.data.visionCode = "" ∧
      d.agoraToken = "tok-1" ∧ d.message.data.agoraToken = "tok-1" ∧
      d.sent = false ∧ d.error = none :=
  ⟨Or.inl rfl, by decide,
    draftNotification_call_unvalidated ⟨1, some "Ann", none⟩ ⟨2, none, some "x"⟩ "" "tok-1"
      (.obj ⟨5, "hello"⟩) (Or.inl rfl) (by decide)⟩

/-! ## Password reset -/

/-- With distinct ids, a document of the collection is the one found under its id. -/
theorem findById_of_mem {s : Store} {a : User} (hid : idsUnique s) (ha : a ∈ s) :
    findById a._id s = some a := by
  induction s with
  | nil => simp at ha
  | cons b t ih =>
    unfold findById findOne at ih ⊢
    unfold idsUnique at hid ih
    simp only [List.map_cons, List.nodup_cons, List.mem_map, not_exists, not_and] at hid
    rcases List.mem_cons.mp ha with h | h
    · subst h
      simp [List.find?_cons]
    · have hne : (b._id == a._id) = false := by
        simpa using fun hb : b._id = a._id => hid.1 a h hb.symm
      simp only [List.find?_cons, hne]
      exact ih hid.2 h

/-- Two documents of a collection with unique keys that hold the same non-null
key are the same document. -/
theorem uniqueKeys_eq {s : Store} {a b : User} {k : String} (hk : uniqueKeys s)
    (ha : a ∈ s) (hb : b ∈ s) (hak : a.forgotPasswordKey = some k)
    (hbk : b.forgotPasswordKey = some k) : a = b := by
  by_contra hne
  have hsymm : Symmetric (fun a b : User =>
      a.forgotPasswordKey = b.forgotPasswordKey → a.forgotPasswordKey = none) := by
    intro x y hxy hyx
    rw [hyx]
    exact hxy hyx.symm
  have h := List.Pairwise.forall hsymm hk ha hb hne (hak.trans hbk.symm)
  rw [hak] at h
  exact Option.some_ne_none k h

/-- What `resetPassword` does once the payload passes its three checks. -/
theorem resetPassword_checked (H : Hasher) (s : Store) (np : String) (key : Option String)
    (hnp : np ≠ "") :
    resetPassword H s ⟨some np, some np⟩ key =
      match findOne (fun u => u.forgotPasswordKey == key) s with
      | none => ("No user found", s)
      | some user =>
        if user.passwordMatches H np then
          ("New Password cannot be same as Current Password", s)
        else
          ("success", updateOne (fun u => u._id == user._id)
            (fun u => { u with password := H.hashSync np, forgotPasswordKey := none }) s) := by
  simp [resetPassword, truthy, hnp]

/-- Either `resetPassword` returns something other than 'success' and leaves
the collection as it is, or it returns 'success' and the document found under
the key is rewritten. -/
theorem resetPassword_cases (H : Hasher) (s : Store) (payload : ResetPayload)
    (key : Option String) :
    ((resetPassword H s payload key).1 ≠ "success" ∧ (resetPassword H s payload key).2 = s) ∨
    ∃ user, findOne (fun u => u.forgotPasswordKey == key) s = some user ∧
      (resetPassword H s payload key).1 = "success" ∧
      (resetPassword H s payload key).2 = updateOne (fun u => u._id == user._id)
        (fun u => { u with password := H.hashSync (payload.newPassword.getD ""),
                           forgotPasswordKey := none }) s := by
  unfold resetPassword
  split
  · exact Or.inl ⟨by simp, rfl⟩
  · split
    · exact Or.inl ⟨by simp, rfl⟩
    · split
      · exact Or.inl ⟨by simp, rfl⟩
      · split
        · exact Or.inl ⟨by simp, rfl⟩
        · rename_i user hu
          split
          · exact Or.inl ⟨by simp, rfl⟩
          · exact Or.inr ⟨user, hu, rfl, rfl⟩

/-- After the document found under a non-null key has been rewritten with its
key cleared, no document of the collection holds that key. -/
theorem findOne_key_after_consume (s : Store) (user : User) (k : String) (f : User → User)
    (hid : idsUnique s) (hkeys : uniqueKeys s)
    (hu : findOne (fun u => u.forgotPasswordKey == some k) s = some user)
    (hf : (f user).forgotPasswordKey = none) :
    findOne (fun u => u.forgotPasswordKey == some k)
      (updateOne (fun u => u._id == user._id) f s) = none := by
  unfold findOne
  rw [List.find?_eq_none]
  intro v hv hvk
  have hmem : user ∈ s := findOne_mem hu
  have huk : user.forgotPasswordKey = some k := by simpa using findOne_holds hu
  have hvk2 : v.forgotPasswordKey = some k := by simpa using hvk
  rcases mem_updateOne (fun u => u._id == user._id) f hid (findById_of_mem hid hmem) hv
    with h | ⟨hvs, hne⟩
  · rw [h, hf] at hvk2
    exact Option.noConfusion hvk2
  · exact hne (congrArg (fun u => u._id) (uniqueKeys_eq hkeys hvs hmem hvk2 huk))

/-- C2: in a collection with distinct ids and unique non-null
`forgotPasswordKey` values, once `resetPassword` has returned 'success' for a
non-null key, a further `resetPassword` with the same key and a payload whose
`newPassword` and `confirmPassword` are present and equal returns
'No user found' and leaves the collection as it is. -/
theorem resetPassword_no_replay (H : Hasher) (s : Store) (payload payload2 : ResetPayload)
    (k np2 : String) (hid : idsUnique s) (hkeys : uniqueKeys s)
    (hsucc : (resetPassword H s payload (some k)).1 = "success")
    (hnew : payload2.newPassword = some np2) (hconf : payload2.confirmPassword = some np2)
    (hnp2 : np2 ≠ "") :
    resetPassword H (resetPassword H s payload (some k)).2 payload2 (some k)
      = ("No user found", (resetPassword H s payload (some k)).2) := by
  rcases resetPassword_cases H s payload (some k) with ⟨hne, _⟩ | ⟨user, hu, _, hst⟩
  · exact absurd hsucc hne
  · have hp2 : payload2 = ⟨some np2, some np2⟩ := by
      cases payload2
      simp only [ResetPayload.mk.injEq]
      exact ⟨hnew, hconf⟩
    rw [hst, hp2, resetPassword_checked H _ np2 (some k) hnp2,
      findOne_key_after_consume s user k _ hid hkeys hu rfl]

theorem resetPassword_no_replay_witness :
    idsUnique [ann, bob] ∧ uniqueKeys [ann, bob] ∧
    (resetPassword tagHasher [ann, bob] ⟨some "hunter3", some "hunter3"⟩ (some "k1")).1
        = "success" ∧
    resetPassword tagHasher
        (resetPassword tagHasher [ann, bob] ⟨some "hunter3", some "hunter3"⟩ (some "k1")).2
        ⟨some "hunter4", some "hunter4"⟩ (some "k1")
      = ("No user found",
        (resetPassword tagHasher [ann, bob] ⟨some "hunter3", some "hunter3"⟩ (some "k1")).2) :=
  ⟨by decide, by decide, by decide,
    resetPassword_no_replay tagHasher [ann, bob] ⟨some "hunter3", some "hunter3"⟩
      ⟨some "hunter4", some "hunter4"⟩ "k1" "hunter4" (by decide) (by decide) (by decide)
      rfl rfl (by decide)⟩

/-! ## Reset requests -/

/-- The collection after `forgotPassword` with an email that is present. -/
theorem forgotPassword_store (cfg : Config) (self : ModelProps) (s : Store) (e k : String)
    (he : e ≠ "") :
    (forgotPassword cfg self s (some e) k).store
      = updateOne (fun u => u.email == toLowerCase e)
          (fun u => { u with forgotPasswordKey := some k }) s := by
  simp [forgotPassword, truthy, he]

/-- The documents of the collection after two reset requests addressed with the
same email: the matched account holding the second key, and the documents that
carry another id, which both requests left as they were. -/
theorem mem_after_two_requests (s : Store) (e k1 k2 : String) (account v : User)
    (hid : idsUnique s) (hacc : findOne (fun u => u.email == e) s = some account)
    (hv : v ∈ updateOne (fun u => u.email == e)
            (fun u => { u with forgotPasswordKey := some k2 })
            (updateOne (fun u => u.email == e)
              (fun u => { u with forgotPasswordKey := some k1 }) s)) :
    v = { account with forgotPasswordKey := some k2 } ∨
    (v ∈ updateOne (fun u => u.email == e)
          (fun u => { u with forgotPasswordKey := some k1 }) s ∧
      v ∈ s ∧ v._id ≠ account._id) := by
  have h1 := findOne_updateOne (fun u => u.email == e)
    (fun u => { u with forgotPasswordKey := some k1 }) (fun _ => rfl) s
  rw [hacc] at h1
  have hid1 := idsUnique_updateOne (fun u => u.email == e)
    (fun u => { u with forgotPasswordKey := some k1 }) (fun _ => rfl) hid
  rcases mem_updateOne _ _ hid1 h1 hv with h | ⟨hv1, hne⟩
  · exact Or.inl h
  · rcases mem_updateOne _ _ hid hacc hv1 with h | h
    · rw [h] at hne
      exact absurd rfl hne
    · exact Or.inr ⟨hv1, h⟩

/-- A query finds the one document that satisfies its filter and holds a key
that is unique in the collection. -/
theorem findOne_key_of_mem {s : Store} {a : User} {k : String} (hkeys : uniqueKeys s)
    (ha : a ∈ s) (hak : a.forgotPasswordKey = some k) :
    findOne (fun u => u.forgotPasswordKey == some k) s = some a := by
  cases hfind : findOne (fun u => u.forgotPasswordKey == some k) s with
  | none =>
    unfold findOne at hfind
    rw [List.find?_eq_none] at hfind
    exact absurd (by simpa using hak) (hfind a ha)
  | some w =>
    have hwk : w.forgotPasswordKey = some k := by simpa using findOne_holds hfind
    rw [uniqueKeys_eq hkeys (findOne_mem hfind) ha hwk hak]

/-- C3: in a collection with distinct ids whose non-null `forgotPasswordKey`
values are unique before and after each request, for the account matched by the
email `e` and tokens `k1 ≠ k2`: after `forgotPassword(e, k1)` followed by
`forgotPassword(e, k2)` the account holds `k2`; `resetPassword` with `k1` and a
payload whose two passwords are present and equal returns 'No user found' and
leaves the collection, so the account's password, as it is; `resetPassword`
with `k2` and a new password that differs from the current one returns
'success' and gives the account the hash of the new password; and a
`resetPassword` that changes the account was called with the key `k2`. -/
theorem forgotPassword_overwrites_key (cfg : Config) (self : ModelProps) (H : Hasher)
    (s : Store) (e k1 k2 : String) (account : User)
    (hid : idsUnique s) (hkeys : uniqueKeys s) (he : e ≠ "")
    (hacc : findOne (fun u => u.email == toLowerCase e) s = some account) (hk : k1 ≠ k2)
    (hkeys1 : uniqueKeys (forgotPassword cfg self s (some e) k1).store)
    (hkeys2 : uniqueKeys
      (forgotPassword cfg self (forgotPassword cfg self s (some e) k1).store (some e) k2).store) :
    findOne (fun u => u.email == toLowerCase e)
        (forgotPassword cfg self (forgotPassword cfg self s (some e) k1).store (some e) k2).store
      = some { account with forgotPasswordKey := some k2 } ∧
    findById account._id
        (forgotPassword cfg self (forgotPassword cfg self s (some e) k1).store (some e) k2).store
      = some { account with forgotPasswordKey := some k2 } ∧
    (∀ np, np ≠ "" →
      resetPassword H
          (forgotPassword cfg self (forgotPassword cfg self s (some e) k1).store
            (some e) k2).store ⟨some np, some np⟩ (some k1)
        = ("No user found",
          (forgotPassword cfg self (forgotPassword cfg self s (some e) k1).store
            (some e) k2).store)) ∧
    (∀ np, np ≠ "" → account.passwordMatches H np = false →
      (resetPassword H
          (forgotPassword cfg self (forgotPassword cfg self s (some e) k1).store
            (some e) k2).store ⟨some np, some np⟩ (some k2)).1 = "success" ∧
      findById account._id (resetPassword H
          (forgotPassword cfg self (forgotPassword cfg self s (some e) k1).store
            (some e) k2).store ⟨some np, some np⟩ (some k2)).2
        = some { account with password := H.hashSync np, forgotPasswordKey := none }) ∧
    (∀ payload key,
      findById account._id (resetPassword H
          (forgotPassword cfg self (forgotPassword cfg self s (some e) k1).store
            (some e) k2).store payload key).2
        ≠ findById account._id
          (forgotPassword cfg self (forgotPassword cfg self s (some e) k1).store
            (some e) k2).store →
      key = some k2) := by
  have _ := hkeys
  rw [forgotPassword_store cfg self _ e k2 he, forgotPassword_store cfg self s e k1 he]
    at hkeys2 ⊢
  rw [forgotPassword_store cfg self s e k1 he] at hkeys1
  have hmem := fun v hv =>
    mem_after_two_requests s (toLowerCase e) k1 k2 account v hid hacc hv
  have hfound1 : findOne (fun u => u.email == toLowerCase e)
      (updateOne (fun u => u.email == toLowerCase e)
        (fun u => { u with forgotPasswordKey := some k1 }) s)
      = some { account with forgotPasswordKey := some k1 } := by
    rw [findOne_updateOne _ _ (by intro u; rfl), hacc]
    rfl
  have hid2 : idsUnique (updateOne (fun u => u.email == toLowerCase e)
      (fun u => { u with forgotPasswordKey := some k2 })
      (updateOne (fun u => u.email == toLowerCase e)
        (fun u => { u with forgotPasswordKey := some k1 }) s)) := by
    refine idsUnique_updateOne _ _ ?_ (idsUnique_updateOne _ _ ?_ hid) <;> intro u <;> rfl
  have hfound : findOne (fun u => u.email == toLowerCase e)
      (updateOne (fun u => u.email == toLowerCase e)
        (fun u => { u with forgotPasswordKey := some k2 })
        (updateOne (fun u => u.email == toLowerCase e)
          (fun u => { u with forgotPasswordKey := some k1 }) s))
      = some { account with forgotPasswordKey := some k2 } := by
    rw [findOne_updateOne _ _ (by intro u; rfl), hfound1]
    rfl
  have hbyid := findById_of_mem (a := { account with forgotPasswordKey := some k2 }) hid2
    (findOne_mem hfound)
  refine ⟨hfound, hbyid, fun np hnp => ?_, fun np hnp hpw => ?_, fun payload key hchg => ?_⟩
  · rw [resetPassword_checked H _ np (some k1) hnp]
    have hnone : findOne (fun u => u.forgotPasswordKey == some k1)
        (updateOne (fun u => u.email == toLowerCase e)
          (fun u => { u with forgotPasswordKey := some k2 })
          (updateOne (fun u => u.email == toLowerCase e)
            (fun u => { u with forgotPasswordKey := some k1 }) s)) = none := by
      unfold findOne
      rw [List.find?_eq_none]
      intro v hv hvk
      have hvk1 : v.forgotPasswordKey = some k1 := by simpa using hvk
      rcases hmem v hv with h | ⟨hv1, _, hne⟩
      · rw [h] at hvk1
        exact hk (Option.some.inj hvk1).symm
      · exact hne (congrArg (fun u => u._id)
          (uniqueKeys_eq hkeys1 hv1 (findOne_mem hfound1) hvk1 rfl))
    rw [hnone]
  · rw [resetPassword_checked H _ np (some k2) hnp,
      findOne_key_of_mem hkeys2 (findOne_mem hfound) rfl]
    have hpw2 : User.passwordMatches H { account with forgotPasswordKey := some k2 } np
        = false := hpw
    simp only [hpw2]
    refine ⟨rfl, ?_⟩
    have h := findById_updateOne_same
      (fun u => { u with password := H.hashSync np, forgotPasswordKey := none })
      (fun _ => rfl) account._id
      (updateOne (fun u => u.email == toLowerCase e)
        (fun u => { u with forgotPasswordKey := some k2 })
        (updateOne (fun u => u.email == toLowerCase e)
          (fun u => { u with forgotPasswordKey := some k1 }) s))
    rw [hbyid] at h
    exact h
  · rcases resetPassword_cases H _ payload key with ⟨_, hsame⟩ | ⟨w, hw, _, hst⟩
    · rw [hsame] at hchg
      exact absurd rfl hchg
    · by_cases hwid : w._id = account._id
      · have hwk : w.forgotPasswordKey = key := by simpa using findOne_holds hw
        rcases hmem w (findOne_mem hw) with h | ⟨_, _, hne⟩
        · rw [← hwk, h]
        · exact absurd hwid hne
      · rw [hst] at hchg
        exact absurd (findById_updateOne_other _ (by intro u; rfl) account._id w._id
          (fun h => hwid h.symm) _) hchg

theorem forgotPassword_overwrites_key_witness :
    idsUnique [ann, bob] ∧ uniqueKeys [ann, bob] ∧ ("a1" : String) ≠ "a2" ∧
    findOne (fun u => u.email == toLowerCase "Ann@X.io")
        (forgotPassword sampleConfig (UserModel "model")
          (forgotPassword sampleConfig (UserModel "model") [ann, bob] (some "Ann@X.io") "a1").store
          (some "Ann@X.io") "a2").store
      = some { ann with forgotPasswordKey := some "a2" } ∧
    resetPassword tagHasher
        (forgotPassword sampleConfig (UserModel "model")
          (forgotPassword sampleConfig (UserModel "model") [ann, bob] (some "Ann@X.io") "a1").store
          (some "Ann@X.io") "a2").store ⟨some "secret2", some "secret2"⟩ (some "a1")
      = ("No user found",
        (forgotPassword sampleConfig (UserModel "model")
          (forgotPassword sampleConfig (UserModel "model") [ann, bob] (some "Ann@X.io") "a1").store
          (some "Ann@X.io") "a2").store) ∧
    findById 1 (resetPassword tagHasher
        (forgotPassword sampleConfig (UserModel "model")
          (forgotPassword sampleConfig (UserModel "model") [ann, bob] (some "Ann@X.io") "a1").store
          (some "Ann@X.io") "a2").store ⟨some "secret2", some "secret2"⟩ (some "a2")).2
      = some { ann with password := tagHasher.hashSync "secret2", forgotPasswordKey := none } :=
  ⟨by decide, by decide, by decide,
    (forgotPassword_overwrites_key sampleConfig (UserModel "model") tagHasher [ann, bob]
      "Ann@X.io" "a1" "a2" ann (by decide) (by decide) (by decide) (by decide) (by decide)
      (by decide) (by decide)).1,
    (forgotPassword_overwrites_key sampleConfig (UserModel "model") tagHasher [ann, bob]
      "Ann@X.io" "a1" "a2" ann (by decide) (by decide) (by decide) (by decide) (by decide)
      (by decide) (by decide)).2.2.1 "secret2" (by decide),
    ((forgotPassword_overwrites_key sampleConfig (UserModel "model") tagHasher [ann, bob]
      "Ann@X.io" "a1" "a2" ann (by decide) (by decide) (by decide) (by decide) (by decide)
      (by decide) (by decide)).2.2.2.1 "secret2" (by decide) (by decide)).2⟩

/-- C4: evaluation at an email that matches no account.  The call completes
normally and hands one message to the mail transport; the collection is left
as it is. -/
theorem forgotPassword_unknown_email_completes :
    findOne (fun u => u.email == "nobody@x.io") [ann, bob] = none ∧
    (forgotPassword sampleConfig (UserModel "model") [ann, bob] (some "nobody@x.io") "k9").result
      = .ok () ∧
    (forgotPassword sampleConfig (UserModel "model") [ann, bob] (some "nobody@x.io") "k9").store
      = [ann, bob] ∧
    (forgotPassword sampleConfig (UserModel "model") [ann, bob] (some "nobody@x.io")
      "k9").mails.length = 1 := by
  decide

/-- C5: evaluation at an email that matches an account.  The key is written to
the account, and the one message handed to the mail transport has no recipient
and a link whose key is the text 'undefined'. -/
theorem forgotPassword_mail_reads_model :
    (forgotPassword sampleConfig (UserModel "model") [ann, bob] (some "ann@x.io") "k9").store
      = [{ ann with forgotPasswordKey := some "k9" }, bob] ∧
    (forgotPassword sampleConfig (UserModel "model") [ann, bob] (some "ann@x.io") "k9").mails
      = [{ from_ := "noreply@vision.io"
           to_ := none
           subject := "Reset Password"
           html := "<div><h2>Hello model!</h2><p>Click <a href=\"https://vision.io/api/auth/verifyPasswordKey?key=undefined\">here</a> to reset your Password.</p></div>" }] := by
  decide

/-- C10: evaluation at a null key.  The first account without an outstanding
reset is found, `resetPassword` returns 'success' and that account's password
is replaced. -/
theorem resetPassword_null_key_resets :
    ann.forgotPasswordKey = none ∧
    resetPassword tagHasher [ann, bob] ⟨some "hunter3", some "hunter3"⟩ none
      = ("success",
        [{ ann with password := tagHasher.hashSync "hunter3", forgotPasswordKey := none },
         bob]) := by
  decide

end VisionCalling
